import Mathlib

/-!
Verification of the docker-proxy gateway (two source variants: the passive
`worker.js` with an in-memory token cache, and the active-strategy variant).
The JavaScript is shallowly embedded: strings are Lean `String`s manipulated
through executable list-of-char helpers, the mutable `Headers` object is an
association list with lowercased keys, the global token cache is explicit
state, and every network interaction is an oracle parameter whose calls are
recorded in an event trace.
-/

namespace DockerProxy

/-! ### Executable string helpers (models of the JS string primitives used) -/

/-- Model of `String.prototype.split` restricted to a single-character
separator, as used by `path.split('/')`. -/
def splitOnChar (c : Char) : List Char → List (List Char)
  | [] => [[]]
  | x :: xs =>
    match splitOnChar c xs with
    | [] => [[]]
    | g :: gs => if x = c then [] :: g :: gs else (x :: g) :: gs

/-- `path.split('/')`. -/
def splitSlash (s : String) : List String :=
  (splitOnChar '/' s.data).map (fun l => String.mk l)

/-- ASCII lowercasing, the normalization the platform `Headers` object applies
to header names. -/
def lowerStr (s : String) : String := String.mk (s.data.map Char.toLower)

/-- `s.startsWith(p)`. -/
def startsWithStr (s p : String) : Bool := p.data.isPrefixOf s.data

/-- `s.includes(c)` for a single character. -/
def containsChar (s : String) (c : Char) : Bool := s.data.contains c

/-- `Array.prototype.join('/')`. -/
def joinSlash : List String → String
  | [] => ""
  | [a] => a
  | a :: b :: rest => a ++ "/" ++ joinSlash (b :: rest)

/-- JavaScript truthiness of a nullable string (`null`, `undefined` and `""`
are falsy). -/
def jsTruthy : Option String → Bool
  | none => false
  | some s => s != ""

/-- The string value held by a nullable-string variable (`""` for absent). -/
def jsVal : Option String → String
  | none => ""
  | some s => s

/-! ### Headers model

The platform `Headers` object: a map from lowercased header names to values.
We model it as an association list; `hset` overwrites, `hget` is
case-insensitive lookup, `hdelete` removes. -/

abbrev Headers := List (String × String)

def hset (h : Headers) (k v : String) : Headers :=
  (lowerStr k, v) :: h.filter (fun p => p.1 != lowerStr k)

def hget (h : Headers) (k : String) : Option String :=
  (h.find? (fun p => p.1 == lowerStr k)).map (fun p => p.2)

def hdelete (h : Headers) (k : String) : Headers :=
  h.filter (fun p => p.1 != lowerStr k)

theorem hget_hset_self (h : Headers) (k v : String) :
    hget (hset h k v) k = some v := by
  simp [hget, hset, List.find?]

theorem hget_hdelete_self (h : Headers) (k : String) :
    hget (hdelete h k) k = none := by
  simp only [hget, hdelete, Option.map_eq_none']
  rw [List.find?_eq_none]
  intro x hx
  have hx' := List.of_mem_filter hx
  simpa [bne_iff_ne] using hx'

theorem hdelete_hset_self (h : Headers) (k v : String) :
    hdelete (hset h k v) k = hdelete h k := by
  simp [hdelete, hset, List.filter_filter]

/-! ### Scope Deriver (`parseScope`, identical in both variants) -/

/-- The four path segments that terminate a repository name. -/
def markerSegments : List String := ["manifests", "blobs", "tags", "referrers"]

def isMarkerSeg (p : String) : Bool := markerSegments.contains p

/-- `parts.findIndex(p => markers.includes(p))`: index of the first marker
segment, `none` when absent. -/
def findMarkerIdx : List String → Option Nat
  | [] => none
  | p :: rest =>
    if isMarkerSeg p then some 0 else (findMarkerIdx rest).map (fun i => i + 1)

/-- Body of `parseScope` after `path.split('/').filter(p => p)`.  The JS
mutation of `repoName` (`library/` defaulting) is written as a branch. -/
def parseScopeParts (parts : List String) : String :=
  if parts.length < 2 then ""
  else if parts.contains "_catalog" then "registry:catalog:*"
  else
    let repoName :=
      match findMarkerIdx parts with
      | some i => joinSlash ((parts.take i).drop 1)
      | none => joinSlash (parts.drop 1)
    if repoName = "" then ""
    else if containsChar repoName '/' then "repository:" ++ repoName ++ ":pull"
    else "repository:library/" ++ repoName ++ ":pull"

/-- `parseScope(path)` from the source (both variants, lines 26-57 / 22-53). -/
def parseScope (path : String) : String :=
  parseScopeParts ((splitSlash path).filter (fun p => p != ""))

/-! ### Token Broker (`getAuthToken`)

The cached variant (`worker.js` lines 59-126).  The global `tokenCache` map
and `Date.now()` are explicit state; the auth-service HTTP client is an
oracle `net : Nat → Except String AuthResponse` giving the outcome of the
n-th fetch of this call (`.error` models a thrown transport exception, and a
response whose JSON body failed to parse is modelled by absent fields).
Every fetch and every backoff sleep is recorded in an event trace.  The
model clock advances only across the explicit 10s sleep. -/

def TOKEN_CACHE_TTL : Nat := 240000

structure CacheEntry where
  token : String
  expiresAt : Nat
deriving DecidableEq

structure AuthState where
  cache : List (String × CacheEntry)
  now : Nat
deriving DecidableEq

/-- The observable fields of a token-endpoint response: HTTP status and the
`token` / `access_token` fields of the parsed JSON body. -/
structure AuthResponse where
  status : Nat
  tokenField : Option String
  accessTokenField : Option String
deriving DecidableEq

inductive AuthEvent where
  | tokenRequest (scope : String) (authorization : Option String)
  | sleep (ms : Nat)
deriving DecidableEq

/-- `` `${scope}:${authorization || 'anonymous'}` ``. -/
def cacheKey (scope : String) (authorization : Option String) : String :=
  scope ++ ":" ++ (if jsTruthy authorization then jsVal authorization else "anonymous")

/-- `tokenCache.get(key)`. -/
def lookupCache (c : List (String × CacheEntry)) (k : String) : Option CacheEntry :=
  (c.find? (fun p => p.1 == k)).map (fun p => p.2)

/-- `tokenCache.set(key, entry)`. -/
def setCache (c : List (String × CacheEntry)) (k : String) (e : CacheEntry) :
    List (String × CacheEntry) :=
  (k, e) :: c.filter (fun p => p.1 != k)

/-- `tokenResp.ok`: status in the 2xx range. -/
def respOk (r : AuthResponse) : Bool := 200 ≤ r.status && r.status < 300

/-- `tokenData.token || tokenData.access_token || null`. -/
def pickToken (r : AuthResponse) : Option String :=
  if jsTruthy r.tokenField then r.tokenField
  else if jsTruthy r.accessTokenField then r.accessTokenField
  else none

/-- Tail of `getAuthToken` after a usable final response (`worker.js` lines
103-121): non-2xx yields `null`; otherwise the token is extracted and, when
truthy, cached with `expiresAt = Date.now() + TOKEN_CACHE_TTL`. -/
def finishToken (st : AuthState) (key : String) (resp : AuthResponse)
    (evs : List AuthEvent) : Option String × AuthState × List AuthEvent :=
  if respOk resp then
    match pickToken resp with
    | some t =>
        (some t,
         { st with cache := setCache st.cache key ⟨t, st.now + TOKEN_CACHE_TTL⟩ },
         evs)
    | none => (none, st, evs)
  else (none, st, evs)

/-- The `try` body of `getAuthToken` (`worker.js` lines 69-125): first fetch,
single 10s-backoff retry on 429, then `finishToken`.  A thrown fetch is
caught and yields `null`. -/
def getAuthTokenFetch (scope : String) (authorization : Option String)
    (st : AuthState) (net : Nat → Except String AuthResponse) (key : String) :
    Option String × AuthState × List AuthEvent :=
  let ev0 := AuthEvent.tokenRequest scope authorization
  match net 0 with
  | .error _ => (none, st, [ev0])
  | .ok resp0 =>
    if resp0.status = 429 then
      let st1 : AuthState := { st with now := st.now + 10000 }
      match net 1 with
      | .error _ => (none, st1, [ev0, .sleep 10000, ev0])
      | .ok resp1 => finishToken st1 key resp1 [ev0, .sleep 10000, ev0]
    else finishToken st key resp0 [ev0]

/-- `getAuthToken(scope, authorization)` (`worker.js` lines 59-126): cache
lookup guarded by `Date.now() < cached.expiresAt`, else a fresh fetch. -/
def getAuthToken (scope : String) (authorization : Option String)
    (st : AuthState) (net : Nat → Except String AuthResponse) :
    Option String × AuthState × List AuthEvent :=
  let key := cacheKey scope authorization
  match lookupCache st.cache key with
  | some cached =>
    if st.now < cached.expiresAt then (some cached.token, st, [])
    else getAuthTokenFetch scope authorization st net key
  | none => getAuthTokenFetch scope authorization st net key

/-- `getAuthToken` of the cache-less active variant (part_000 lines 55-82):
one fetch, no retry, no cache; the whole call is abstracted over the single
auth-service response. -/
def getAuthTokenSimple (resp : Except String AuthResponse) : Option String :=
  match resp with
  | .error _ => none
  | .ok r => if respOk r then pickToken r else none

/-! ### HTTP model for the forwarder and dispatcher

A response is status/headers/body; outbound fetch options carry method,
headers, the `redirect` mode handed to the HTTP client, and an optional body.
The upstream registry is an oracle `net : String → FetchOptions → Except
String Resp` (`.error` = thrown transport failure).  Forwarders return the
final response together with the list of upstream calls actually issued. -/

def REGISTRY : String := "https://registry-1.docker.io"

inductive RedirectMode where
  | manual
  | follow
deriving DecidableEq

structure Resp where
  status : Nat
  headers : Headers
  body : String
deriving DecidableEq

structure FetchOptions where
  method : String
  headers : Headers
  redirect : RedirectMode
  body? : Option String
deriving DecidableEq

/-- `status === 301 || status === 302 || status === 307`. -/
def isRedirect (s : Nat) : Bool := s == 301 || s == 302 || s == 307

/-- An upstream call: target URL and the options it was issued with. -/
abbrev UpCall := String × FetchOptions

abbrev UpNet := String → FetchOptions → Except String Resp

/-- The follow-up request built at every redirect-resolution site: method
forced to GET, the given headers minus `Authorization`, `redirect: 'follow'`,
no body. -/
def redirectOptions (h : Headers) : FetchOptions :=
  ⟨"GET", hdelete h "Authorization", RedirectMode.follow, none⟩

/-- The redirect-resolution block the source repeats verbatim at three
places (`worker.js` 174-186, part_000 137-149 and 154-166): if the current
response is 301/302/307 with a truthy `Location`, issue a credential-free
GET (built from `baseHeaders`) to that location and use its result;
otherwise keep the current response.  `tr` is the trace accumulated so
far. -/
def resolveRedirect (baseHeaders : Headers) (net : UpNet) (resp : Resp)
    (tr : List UpCall) : Except String (Resp × List UpCall) :=
  if isRedirect resp.status then
    let location := hget resp.headers "Location"
    if jsTruthy location then
      let ropts := redirectOptions baseHeaders
      match net (jsVal location) ropts with
      | .error e => .error e
      | .ok r2 => .ok (r2, tr ++ [(jsVal location, ropts)])
    else .ok (resp, tr)
  else .ok (resp, tr)

/-- `handleDockerRequest` of the passive variant (`worker.js` lines 168-189):
forward to the registry, then resolve one redirect. -/
def handleDockerRequest (path : String) (fetchOptions : FetchOptions)
    (net : UpNet) : Except String (Resp × List UpCall) :=
  let targetUrl := REGISTRY ++ path
  match net targetUrl fetchOptions with
  | .error e => .error e
  | .ok response =>
    resolveRedirect fetchOptions.headers net response [(targetUrl, fetchOptions)]

/-- `handleDockerRequest` of the active variant (part_000 lines 116-169): on
an anonymous 401, fetch a token for the derived scope and retry with
`Authorization: Bearer <token>`, resolving a redirect of the retried
response with the retry's headers; afterwards resolve a redirect of the
current response with the original headers.  `authNet` is the auth-service
oracle consumed by the inner `getAuthToken` call. -/
def handleDockerRequestActive (path : String) (fetchOptions : FetchOptions)
    (net : UpNet) (authNet : Except String AuthResponse) :
    Except String (Resp × List UpCall) :=
  let targetUrl := REGISTRY ++ path
  match net targetUrl fetchOptions with
  | .error e => .error e
  | .ok resp0 =>
    let afterAuth : Except String (Resp × List UpCall) :=
      if resp0.status == 401 && !(jsTruthy (hget fetchOptions.headers "Authorization")) then
        match getAuthTokenSimple authNet with
        | some token =>
          let authHeaders := hset fetchOptions.headers "Authorization" ("Bearer " ++ token)
          let opts1 : FetchOptions := { fetchOptions with headers := authHeaders }
          match net targetUrl opts1 with
          | .error e => .error e
          | .ok r1 =>
            resolveRedirect authHeaders net r1 [(targetUrl, fetchOptions), (targetUrl, opts1)]
        | none => .ok (resp0, [(targetUrl, fetchOptions)])
      else .ok (resp0, [(targetUrl, fetchOptions)])
    match afterAuth with
    | .error e => .error e
    | .ok (resp, tr) => resolveRedirect fetchOptions.headers net resp tr

/-! ### Gateway Dispatcher (the exported `fetch` handlers) -/

/-- The observable parts of the inbound request: `url.hostname`,
`url.pathname`, the parsed `scope` query parameter, method, headers, body. -/
structure Request where
  hostname : String
  path : String
  scopeQuery : Option String
  method : String
  headers : Headers
  body : Option String
deriving DecidableEq

inductive Route where
  | v2root
  | auth
  | notFound
  | proxy
deriving DecidableEq

/-- The dispatch chain of `fetch` (both variants): `/v2/` root check, then
the exact `/v2/auth` match, then the `/v2/` filter, else proxy. -/
def route (path : String) : Route :=
  if path = "/v2/" ∨ path = "/v2" then Route.v2root
  else if path = "/v2/auth" then Route.auth
  else if !(startsWithStr path "/v2/") then Route.notFound
  else Route.proxy

def hopByHopHeaders : List String :=
  ["host", "connection", "upgrade", "proxy-connection"]

/-- The sanitization loop over `request.headers.entries()`: copy every header
whose lowercased name is not hop-by-hop. -/
def sanitizeHeaders (h : Headers) : Headers :=
  h.foldl (fun acc p => if hopByHopHeaders.contains (lowerStr p.1) then acc else hset acc p.1 p.2) []

def defaultAccept : String :=
  "application/vnd.docker.distribution.manifest.v2+json, application/vnd.docker.distribution.manifest.list.v2+json, application/vnd.oci.image.manifest.v1+json, application/vnd.oci.image.index.v1+json"

/-- `if (!headers.has('Accept')) headers.set('Accept', ...)`. -/
def withAcceptDefault (h : Headers) : Headers :=
  if (hget h "Accept").isSome then h else hset h "Accept" defaultAccept

def mutatingMethods : List String := ["POST", "PUT", "PATCH", "DELETE"]

/-- The outbound options built by the dispatcher: sanitized headers with the
`Accept` default, `redirect: 'manual'`, and a body only for mutating
methods. -/
def buildFetchOptions (req : Request) : FetchOptions :=
  { method := req.method,
    headers := withAcceptDefault (sanitizeHeaders req.headers),
    redirect := RedirectMode.manual,
    body? := if mutatingMethods.contains req.method then req.body else none }

/-- `JSON.stringify({errors:[{code, message}]})`. -/
def errorsJson (code msg : String) : String :=
  "\x7b\"errors\":[\x7b\"code\":\"" ++ code ++ "\",\"message\":\"" ++ msg ++ "\"\x7d]\x7d"

/-- The 503 response of the outer `catch` (both variants):
`error.message || 'service unavailable'`. -/
def serviceUnavailableResp (e : String) : Resp :=
  { status := 503,
    headers := [("content-type", "application/json")],
    body := errorsJson "SERVICE_UNAVAILABLE" (if e = "" then "service unavailable" else e) }

def v2RootResp : Resp :=
  { status := 200,
    headers := [("docker-distribution-api-version", "registry/2.0"),
                ("content-type", "application/json")],
    body := "\x7b\x7d" }

def notFoundResp : Resp :=
  { status := 404, headers := [], body := "Not Found" }

/-- Stand-in for `new Date().toISOString()`; the formatting of the timestamp
is irrelevant to every claim, only that some string is produced. -/
def isoString (now : Nat) : String := toString now

/-- `handleAuth` of the cached variant (`worker.js` lines 128-166).  The
dispatcher model keeps only the response; cache-state claims are settled on
`getAuthToken` itself. -/
def handleAuth (req : Request) (st : AuthState)
    (authNet : Nat → Except String AuthResponse) : Resp :=
  let scope := req.scopeQuery
  let authorization := hget req.headers "Authorization"
  if !(jsTruthy scope) then
    let token := (getAuthToken "" authorization st authNet).1
    { status := 200,
      headers := [("content-type", "application/json")],
      body := "\x7b\"token\":\"" ++ jsVal token ++ "\"\x7d" }
  else
    let token := (getAuthToken (jsVal scope) authorization st authNet).1
    if !(jsTruthy token) then
      { status := 401,
        headers := [("content-type", "application/json")],
        body := errorsJson "UNAUTHORIZED" "authentication failed" }
    else
      { status := 200,
        headers := [("content-type", "application/json"), ("cache-control", "no-cache")],
        body := "\x7b\"token\":\"" ++ jsVal token ++ "\",\"access_token\":\"" ++ jsVal token
          ++ "\",\"expires_in\":300,\"issued_at\":\"" ++ isoString st.now ++ "\"\x7d" }

/-- `handleAuth` of the active variant (part_000 lines 84-114), built on the
cache-less broker. -/
def handleAuthSimple (req : Request) (authNet : Except String AuthResponse) : Resp :=
  let scope := req.scopeQuery
  if !(jsTruthy scope) then
    { status := 200,
      headers := [("content-type", "application/json")],
      body := "\x7b\"token\":\"" ++ jsVal (getAuthTokenSimple authNet) ++ "\"\x7d" }
  else
    let token := getAuthTokenSimple authNet
    if !(jsTruthy token) then
      { status := 401,
        headers := [("content-type", "application/json")],
        body := errorsJson "UNAUTHORIZED" "authentication failed" }
    else
      { status := 200,
        headers := [("content-type", "application/json")],
        body := "\x7b\"token\":\"" ++ jsVal token ++ "\"\x7d" }

/-- The header value written by the passive 401 rewrite (`worker.js` line
245): realm pointing at the gateway, service hard-coded. -/
def realmHeaderValue (hostname : String) : String :=
  "Bearer realm=\"https://" ++ hostname ++ "/v2/auth\",service=\"registry.docker.io\""

/-- The 401 post-processing of the passive variant (`worker.js` lines
239-252): when the upstream carried a truthy `WWW-Authenticate`, overwrite it
with the gateway realm; status forced to 401, body passed through. -/
def postProcess401 (hostname : String) (response : Resp) : Resp :=
  if response.status == 401 then
    let wwwAuth := hget response.headers "WWW-Authenticate"
    let responseHeaders :=
      if jsTruthy wwwAuth then hset response.headers "WWW-Authenticate" (realmHeaderValue hostname)
      else response.headers
    { status := 401, headers := responseHeaders, body := response.body }
  else response

/-- The synthesized 401 of the active variant (part_000 lines 218-233). -/
def synth401 (hostname : String) : Resp :=
  { status := 401,
    headers :=
      hset (hset (hset [] "Content-Type" "application/json")
        "Docker-Distribution-Api-Version" "registry/2.0")
        "WWW-Authenticate"
        ("Bearer realm=\"https://" ++ hostname ++ "/v2/auth\",service=\"registry\""),
    body := errorsJson "UNAUTHORIZED" "authentication required" }

/-- The exported `fetch` of the passive variant (`worker.js` lines 191-268).
Returns the response and the list of upstream registry calls issued (empty
for the non-proxy branches and for the caught-error branch). -/
def fetchHandler (req : Request) (net : UpNet) (st : AuthState)
    (authNet : Nat → Except String AuthResponse) : Resp × List UpCall :=
  match route req.path with
  | Route.v2root => (v2RootResp, [])
  | Route.auth => (handleAuth req st authNet, [])
  | Route.notFound => (notFoundResp, [])
  | Route.proxy =>
    match handleDockerRequest req.path (buildFetchOptions req) net with
    | .ok (response, tr) => (postProcess401 req.hostname response, tr)
    | .error e => (serviceUnavailableResp e, [])

/-- The exported `fetch` of the active variant (part_000 lines 171-252). -/
def fetchHandlerActive (req : Request) (net : UpNet)
    (authNet authNetInner : Except String AuthResponse) : Resp × List UpCall :=
  match route req.path with
  | Route.v2root => (v2RootResp, [])
  | Route.auth => (handleAuthSimple req authNet, [])
  | Route.notFound => (notFoundResp, [])
  | Route.proxy =>
    match handleDockerRequestActive req.path (buildFetchOptions req) net authNetInner with
    | .ok (response, tr) =>
      if response.status == 401 then (synth401 req.hostname, tr)
      else ({ status := response.status, headers := response.headers, body := response.body }, tr)
    | .error e => (serviceUnavailableResp e, [])

/-! ## Theorems -/

/-! ### C3: scope derivation for marker paths -/

theorem joinSlash_ne_empty (l : List String) (hne : l ≠ []) (hx : ∀ x ∈ l, x ≠ "") :
    joinSlash l ≠ "" := by
  match l with
  | [] => exact absurd rfl hne
  | [a] => simpa [joinSlash] using hx a (by simp)
  | a :: b :: t =>
    intro h
    have hlen := congrArg String.length h
    have hslash : ("/" : String).length = 1 := rfl
    simp [joinSlash, String.length_append, hslash] at hlen

/-- Counterexample to claim C3 as stated: the path `/v2/manifests` contains a
marker segment, no `_catalog`, and two non-empty segments, yet `parseScope`
returns `""` rather than a `repository:<name>:pull` string (the claim's
formula would give `repository:library/:pull`). -/
theorem parseScope_marker_scope_cex :
    parseScope "/v2/manifests" = "" ∧
    parseScope "/v2/manifests" ≠ "repository:library/:pull" := by
  constructor
  · decide
  · decide

/-- Claim C3 (amended): for every path whose non-empty segments contain no
`_catalog`, number at least 2, and whose first marker segment
(`manifests`/`blobs`/`tags`/`referrers`) sits at index at least 2,
`parseScope` returns `repository:<name>:pull` where `<name>` is the segments
from index 1 up to the marker joined by `/`, prefixed with `library/` when it
contains no slash.  (When the marker sits at index 0 or 1 the derived name is
empty and `parseScope` returns `""` instead.) -/
theorem parseScope_marker_scope (path : String) (i : Nat)
    (hlen : 2 ≤ ((splitSlash path).filter (fun p => p != "")).length)
    (hcat : ((splitSlash path).filter (fun p => p != "")).contains "_catalog" = false)
    (hfind : findMarkerIdx ((splitSlash path).filter (fun p => p != "")) = some i)
    (hi : 2 ≤ i) :
    parseScope path =
      (let name := joinSlash (((((splitSlash path).filter (fun p => p != ""))).take i).drop 1)
       if containsChar name '/' then "repository:" ++ name ++ ":pull"
       else "repository:library/" ++ name ++ ":pull") := by
  set parts := (splitSlash path).filter (fun p => p != "") with hparts
  have hname : joinSlash ((parts.take i).drop 1) ≠ "" := by
    apply joinSlash_ne_empty
    · have h1 : (parts.take i).length = min i parts.length := List.length_take i parts
      have h2 : 1 ≤ ((parts.take i).drop 1).length := by
        rw [List.length_drop, h1]
        omega
      intro hnil
      rw [hnil] at h2
      simp at h2
    · intro x hxmem
      have hx1 : x ∈ parts.take i := List.mem_of_mem_drop hxmem
      have hx2 : x ∈ parts := List.mem_of_mem_take hx1
      rw [hparts] at hx2
      have hx3 := List.of_mem_filter hx2
      simpa [bne_iff_ne] using hx3
  show parseScopeParts parts = _
  unfold parseScopeParts
  rw [if_neg (by omega : ¬ parts.length < 2)]
  rw [hcat]
  rw [hfind]
  simp only [Bool.false_eq_true, if_false]
  rw [if_neg hname]

/-- Concrete instance of the amended C3 theorem at the claim's own example
path. -/
theorem parseScope_marker_scope_witness :
    parseScope "/v2/myorg/myapp/blobs/sha256:abc" = "repository:myorg/myapp:pull" := by
  have h := parseScope_marker_scope "/v2/myorg/myapp/blobs/sha256:abc" 3
    (by decide) (by decide) (by decide) (by decide)
  exact h.trans (by decide)

/-! ### Token broker lemmas -/

theorem finishToken_trace (st : AuthState) (key : String) (r : AuthResponse)
    (evs : List AuthEvent) : (finishToken st key r evs).2.2 = evs := by
  unfold finishToken
  repeat' split
  all_goals rfl

theorem finishToken_cases (st : AuthState) (key : String) (r : AuthResponse)
    (evs : List AuthEvent) :
    finishToken st key r evs = (none, st, evs) ∨
    ∃ t, pickToken r = some t ∧
      finishToken st key r evs =
        (some t, { st with cache := setCache st.cache key ⟨t, st.now + TOKEN_CACHE_TTL⟩ }, evs) := by
  unfold finishToken
  split
  · rcases hp : pickToken r with _ | t
    · left; rfl
    · right; exact ⟨t, rfl, rfl⟩
  · left; rfl

theorem getAuthTokenFetch_trace (scope : String) (auth : Option String) (st : AuthState)
    (net : Nat → Except String AuthResponse) (key : String) :
    ∃ rest, (getAuthTokenFetch scope auth st net key).2.2 =
      AuthEvent.tokenRequest scope auth :: rest := by
  simp only [getAuthTokenFetch]
  split
  · exact ⟨[], rfl⟩
  · split
    · split
      · exact ⟨_, rfl⟩
      · exact ⟨_, finishToken_trace _ _ _ _⟩
    · exact ⟨_, finishToken_trace _ _ _ _⟩

theorem getAuthTokenFetch_outcome (scope : String) (auth : Option String) (st : AuthState)
    (net : Nat → Except String AuthResponse) (key : String) :
    ((getAuthTokenFetch scope auth st net key).1 = none ∧
      (getAuthTokenFetch scope auth st net key).2.1.cache = st.cache) ∨
    (∃ t resp n, pickToken resp = some t ∧
      (getAuthTokenFetch scope auth st net key).1 = some t ∧
      (getAuthTokenFetch scope auth st net key).2.1.cache =
        setCache st.cache key ⟨t, n⟩) := by
  simp only [getAuthTokenFetch]
  split
  · exact Or.inl ⟨rfl, rfl⟩
  · next r0 heq0 =>
    split
    · split
      · exact Or.inl ⟨rfl, rfl⟩
      · next r1 heq1 =>
        rcases finishToken_cases { st with now := st.now + 10000 } key r1
          [AuthEvent.tokenRequest scope auth, AuthEvent.sleep 10000,
           AuthEvent.tokenRequest scope auth] with hN | ⟨t, hp, hE⟩
        · rw [hN]; exact Or.inl ⟨rfl, rfl⟩
        · rw [hE]; exact Or.inr ⟨t, r1, _, hp, rfl, rfl⟩
    · rcases finishToken_cases st key r0 [AuthEvent.tokenRequest scope auth] with hN | ⟨t, hp, hE⟩
      · rw [hN]; exact Or.inl ⟨rfl, rfl⟩
      · rw [hE]; exact Or.inr ⟨t, r0, _, hp, rfl, rfl⟩

theorem getAuthToken_miss (scope : String) (auth : Option String) (st : AuthState)
    (net : Nat → Except String AuthResponse)
    (hmiss : ∀ e, lookupCache st.cache (cacheKey scope auth) = some e →
      e.expiresAt ≤ st.now) :
    getAuthToken scope auth st net =
      getAuthTokenFetch scope auth st net (cacheKey scope auth) := by
  simp only [getAuthToken]
  rcases hl : lookupCache st.cache (cacheKey scope auth) with _ | e
  · rfl
  · exact if_neg (by have := hmiss e hl; omega)

theorem pickToken_truthy (r : AuthResponse) :
    pickToken r = none ∨ jsTruthy (pickToken r) = true := by
  unfold pickToken
  split
  · next h => exact Or.inr h
  · split
    · next h => exact Or.inr h
    · exact Or.inl rfl

theorem pickToken_ne_empty (r : AuthResponse) (t : String) (h : pickToken r = some t) :
    t ≠ "" := by
  rcases pickToken_truthy r with hN | hT
  · rw [h] at hN; cases hN
  · rw [h] at hT
    simpa [jsTruthy, bne_iff_ne] using hT

/-! ### C2: token cache freshness -/

/-- Claim C2: `getAuthToken` returns a cached token only while
`now < expiresAt` (first and third conjuncts: a fresh hit returns the cached
token with no network event at all, and conversely any call that issues no
network event was a fresh cache hit), and a call whose entry is absent or
expired starts with a fresh token fetch (second conjunct). -/
theorem token_cache_freshness (scope : String) (authorization : Option String)
    (st : AuthState) (net : Nat → Except String AuthResponse) :
    (∀ e, lookupCache st.cache (cacheKey scope authorization) = some e →
      st.now < e.expiresAt →
      getAuthToken scope authorization st net = (some e.token, st, [])) ∧
    ((∀ e, lookupCache st.cache (cacheKey scope authorization) = some e →
        e.expiresAt ≤ st.now) →
      ∃ rest, (getAuthToken scope authorization st net).2.2 =
        AuthEvent.tokenRequest scope authorization :: rest) ∧
    ((getAuthToken scope authorization st net).2.2 = [] →
      ∃ e, lookupCache st.cache (cacheKey scope authorization) = some e ∧
        st.now < e.expiresAt ∧
        (getAuthToken scope authorization st net).1 = some e.token) := by
  refine ⟨?_, ?_, ?_⟩
  · intro e he hfresh
    simp only [getAuthToken, he]
    exact if_pos hfresh
  · intro hexp
    rw [getAuthToken_miss scope authorization st net hexp]
    exact getAuthTokenFetch_trace _ _ _ _ _
  · intro hempty
    rcases hl : lookupCache st.cache (cacheKey scope authorization) with _ | e
    · exfalso
      obtain ⟨rest, hr⟩ := getAuthTokenFetch_trace scope authorization st net
        (cacheKey scope authorization)
      rw [getAuthToken_miss scope authorization st net
        (by intro e he; rw [he] at hl; simp at hl)] at hempty
      rw [hempty] at hr
      simp at hr
    · by_cases hfresh : st.now < e.expiresAt
      · refine ⟨e, rfl, hfresh, ?_⟩
        simp only [getAuthToken, hl]
        rw [if_pos hfresh]
      · exfalso
        obtain ⟨rest, hr⟩ := getAuthTokenFetch_trace scope authorization st net
          (cacheKey scope authorization)
        rw [getAuthToken_miss scope authorization st net
          (by intro e' he'; rw [he'] at hl
              cases hl
              omega)] at hempty
        rw [hempty] at hr
        simp at hr

/-- Concrete instance of C2: with a cached entry expiring at 100 and the
clock at 50, the cached token is returned with no network traffic. -/
theorem token_cache_freshness_witness :
    getAuthToken "repository:library/nginx:pull" none
      ⟨[("repository:library/nginx:pull:anonymous", ⟨"tok", 100⟩)], 50⟩
      (fun _ => Except.error "unreachable") =
      (some "tok", ⟨[("repository:library/nginx:pull:anonymous", ⟨"tok", 100⟩)], 50⟩, []) := by
  exact (token_cache_freshness "repository:library/nginx:pull" none
    ⟨[("repository:library/nginx:pull:anonymous", ⟨"tok", 100⟩)], 50⟩
    (fun _ => Except.error "unreachable")).1 ⟨"tok", 100⟩ (by decide) (by decide)

/-! ### C6: single retry on 429 -/

/-- Claim C6: when the first token fetch returns 429 (and the cache could not
serve the call), the broker's event trace is exactly one request, one fixed
10s sleep, and one identical re-issued request — no further retries — and an
unsuccessful retry (thrown or non-2xx) yields `none` rather than an
exception. -/
theorem token_429_single_retry (scope : String) (authorization : Option String)
    (st : AuthState) (net : Nat → Except String AuthResponse) (r0 : AuthResponse)
    (hmiss : ∀ e, lookupCache st.cache (cacheKey scope authorization) = some e →
      e.expiresAt ≤ st.now)
    (h0 : net 0 = Except.ok r0) (h429 : r0.status = 429) :
    (getAuthToken scope authorization st net).2.2 =
      [AuthEvent.tokenRequest scope authorization, AuthEvent.sleep 10000,
       AuthEvent.tokenRequest scope authorization] ∧
    (∀ e, net 1 = Except.error e → (getAuthToken scope authorization st net).1 = none) ∧
    (∀ r1, net 1 = Except.ok r1 → respOk r1 = false →
      (getAuthToken scope authorization st net).1 = none) := by
  rw [getAuthToken_miss scope authorization st net hmiss]
  refine ⟨?_, ?_, ?_⟩
  · simp only [getAuthTokenFetch, h0]
    rw [if_pos h429]
    split
    · rfl
    · exact finishToken_trace _ _ _ _
  · intro e h1
    simp only [getAuthTokenFetch, h0, h1]
    rw [if_pos h429]
  · intro r1 h1 hok
    simp only [getAuthTokenFetch, h0, h1]
    rw [if_pos h429]
    simp [finishToken, hok]

/-- Concrete instance of C6: a 429 followed by a 500 produces the
request/sleep/request trace and a `none` result. -/
theorem token_429_single_retry_witness :
    (getAuthToken "s" none ⟨[], 0⟩
        (fun n => if n = 0 then Except.ok ⟨429, none, none⟩
                  else Except.ok ⟨500, none, none⟩)).2.2 =
      [AuthEvent.tokenRequest "s" none, AuthEvent.sleep 10000,
       AuthEvent.tokenRequest "s" none] ∧
    (getAuthToken "s" none ⟨[], 0⟩
        (fun n => if n = 0 then Except.ok ⟨429, none, none⟩
                  else Except.ok ⟨500, none, none⟩)).1 = none := by
  have h := token_429_single_retry "s" none ⟨[], 0⟩
    (fun n => if n = 0 then Except.ok ⟨429, none, none⟩ else Except.ok ⟨500, none, none⟩)
    ⟨429, none, none⟩ (by intro e he; simp [lookupCache] at he) rfl rfl
  exact ⟨h.1, h.2.2 ⟨500, none, none⟩ rfl (by decide)⟩

/-! ### C8: no empty-string tokens -/

theorem getAuthToken_hit (scope : String) (auth : Option String) (st : AuthState)
    (net : Nat → Except String AuthResponse) (e : CacheEntry)
    (hl : lookupCache st.cache (cacheKey scope auth) = some e)
    (hf : st.now < e.expiresAt) :
    getAuthToken scope auth st net = (some e.token, st, []) := by
  simp only [getAuthToken, hl]
  exact if_pos hf

theorem getAuthToken_hit_or_fetch (scope : String) (auth : Option String)
    (st : AuthState) (net : Nat → Except String AuthResponse) :
    (∃ e, lookupCache st.cache (cacheKey scope auth) = some e ∧ st.now < e.expiresAt ∧
      getAuthToken scope auth st net = (some e.token, st, [])) ∨
    getAuthToken scope auth st net =
      getAuthTokenFetch scope auth st net (cacheKey scope auth) := by
  rcases hl : lookupCache st.cache (cacheKey scope auth) with _ | e
  · exact Or.inr (getAuthToken_miss _ _ _ _ (by intro e he; rw [he] at hl; simp at hl))
  · by_cases hf : st.now < e.expiresAt
    · exact Or.inl ⟨e, rfl, hf, getAuthToken_hit _ _ _ _ e hl hf⟩
    · refine Or.inr (getAuthToken_miss _ _ _ _ ?_)
      intro e' he'
      rw [he'] at hl
      cases hl
      omega

theorem lookupCache_mem (c : List (String × CacheEntry)) (k : String) (e : CacheEntry)
    (h : lookupCache c k = some e) : ∃ p ∈ c, p.2 = e := by
  unfold lookupCache at h
  rcases hf : c.find? (fun p => p.1 == k) with _ | p
  · rw [hf] at h; simp at h
  · rw [hf] at h
    exact ⟨p, List.mem_of_find?_eq_some hf, by simpa using h⟩

theorem mem_setCache (c : List (String × CacheEntry)) (k : String) (e : CacheEntry)
    (p : String × CacheEntry) (h : p ∈ setCache c k e) : p = (k, e) ∨ p ∈ c := by
  unfold setCache at h
  rcases List.mem_cons.mp h with h | h
  · exact Or.inl h
  · exact Or.inr (List.mem_of_mem_filter h)

/-- Claim C8: if every cached token is non-empty, `getAuthToken` never
returns the empty string (result is `none` or a non-empty token) and
preserves that cache invariant; moreover the token extraction falls back
from an empty `token` field to `access_token` and yields `none` when both
are empty or absent, and the cache-less broker of the active variant never
returns an empty token either. -/
theorem token_never_empty (scope : String) (authorization : Option String)
    (st : AuthState) (net : Nat → Except String AuthResponse)
    (hc : ∀ p ∈ st.cache, p.2.token ≠ "") :
    ((getAuthToken scope authorization st net).1 = none ∨
      ∃ t, (getAuthToken scope authorization st net).1 = some t ∧ t ≠ "") ∧
    (∀ p ∈ (getAuthToken scope authorization st net).2.1.cache, p.2.token ≠ "") ∧
    (∀ s a, pickToken ⟨s, some "", a⟩ = pickToken ⟨s, none, a⟩) ∧
    (∀ s, pickToken ⟨s, some "", some ""⟩ = none ∧ pickToken ⟨s, none, none⟩ = none) ∧
    (∀ r t, getAuthTokenSimple r = some t → t ≠ "") := by
  have main : ((getAuthToken scope authorization st net).1 = none ∨
      ∃ t, (getAuthToken scope authorization st net).1 = some t ∧ t ≠ "") ∧
      (∀ p ∈ (getAuthToken scope authorization st net).2.1.cache, p.2.token ≠ "") := by
    rcases getAuthToken_hit_or_fetch scope authorization st net with ⟨e, hl, _, heq⟩ | heq
    · rw [heq]
      obtain ⟨p, hpm, hpe⟩ := lookupCache_mem st.cache (cacheKey scope authorization) e hl
      exact ⟨Or.inr ⟨e.token, rfl, hpe ▸ hc p hpm⟩, hc⟩
    · rw [heq]
      rcases getAuthTokenFetch_outcome scope authorization st net
        (cacheKey scope authorization) with ⟨hN, hC⟩ | ⟨t, resp, n, hp, hS, hC⟩
      · refine ⟨Or.inl hN, ?_⟩
        intro p hpm
        rw [hC] at hpm
        exact hc p hpm
      · refine ⟨Or.inr ⟨t, hS, pickToken_ne_empty resp t hp⟩, ?_⟩
        intro p hpm
        rw [hC] at hpm
        rcases mem_setCache _ _ _ _ hpm with hpe | hin
        · rw [hpe]
          exact pickToken_ne_empty resp t hp
        · exact hc p hin
  refine ⟨main.1, main.2, ?_, ?_, ?_⟩
  · intro s a
    simp [pickToken, jsTruthy]
  · intro s
    exact ⟨rfl, rfl⟩
  · intro r t h
    rcases r with e | rr
    · simp [getAuthTokenSimple] at h
    · by_cases hok : respOk rr = true
      · have h' : pickToken rr = some t := by
          simpa [getAuthTokenSimple, hok] using h
        exact pickToken_ne_empty rr t h'
      · simp [getAuthTokenSimple, hok] at h

/-- Concrete instance of C8: a 200 response with an empty `token` field and
`access_token = "tok2"` yields the non-empty fallback token. -/
theorem token_never_empty_witness :
    (getAuthToken "s2" none ⟨[], 0⟩
        (fun _ => Except.ok ⟨200, some "", some "tok2"⟩)).1 = none ∨
      ∃ t, (getAuthToken "s2" none ⟨[], 0⟩
        (fun _ => Except.ok ⟨200, some "", some "tok2"⟩)).1 = some t ∧ t ≠ "" := by
  exact (token_never_empty "s2" none ⟨[], 0⟩
    (fun _ => Except.ok ⟨200, some "", some "tok2"⟩)
    (by intro p hp; simp at hp)).1

/-! ### C9: failures are never cached -/

/-- Claim C9: whenever `getAuthToken` fails (returns `none` — covering thrown
fetches, non-2xx final responses and missing/empty token fields), the token
cache is left exactly as it was, so absence is never memoized. -/
theorem failure_not_cached (scope : String) (authorization : Option String)
    (st : AuthState) (net : Nat → Except String AuthResponse)
    (h : (getAuthToken scope authorization st net).1 = none) :
    (getAuthToken scope authorization st net).2.1.cache = st.cache := by
  rcases getAuthToken_hit_or_fetch scope authorization st net with ⟨e, _, _, heq⟩ | heq
  · rw [heq] at h
    simp at h
  · rw [heq] at h ⊢
    rcases getAuthTokenFetch_outcome scope authorization st net
      (cacheKey scope authorization) with ⟨_, hC⟩ | ⟨t, resp, n, _, hS, _⟩
    · exact hC
    · rw [hS] at h
      simp at h

/-- Concrete instance of C9: a thrown token fetch leaves the (empty) cache
empty. -/
theorem failure_not_cached_witness :
    (getAuthToken "s3" none ⟨[], 7⟩ (fun _ => Except.error "boom")).2.1.cache = [] := by
  exact failure_not_cached "s3" none ⟨[], 7⟩ (fun _ => Except.error "boom") rfl

/-! ### C1: redirects never carry Authorization -/

/-- Claim C1: whenever an upstream response (initial, or — in the active
variant — the one after the auth retry) is a 301/302/307 with a usable
`Location`, the follow-up request is a GET to that location carrying the
same headers minus `Authorization`, and in particular never carries an
`Authorization` header.  The first conjunct settles the passive forwarder
exactly; the second settles both redirect sites of the active forwarder: in
any successful run, every issued call in `redirect: 'follow'` mode (exactly
the redirect follow-ups, since the forwarder is entered with `redirect:
'manual'`) is a GET whose headers are the outbound headers minus
`Authorization`. -/
theorem redirect_strips_authorization :
    (∀ (H : Headers) (net : UpNet) (resp : Resp) (tr0 : List UpCall) (loc : String),
      isRedirect resp.status = true →
      hget resp.headers "Location" = some loc →
      loc ≠ "" →
      (redirectOptions H).method = "GET" ∧
      (redirectOptions H).headers = hdelete H "Authorization" ∧
      hget (redirectOptions H).headers "Authorization" = none ∧
      (∀ r2, net loc (redirectOptions H) = Except.ok r2 →
        resolveRedirect H net resp tr0 =
          Except.ok (r2, tr0 ++ [(loc, redirectOptions H)]))) ∧
    (∀ (path : String) (opts : FetchOptions) (net : UpNet) (r : Resp) (loc : String),
      net (REGISTRY ++ path) opts = Except.ok r →
      isRedirect r.status = true →
      hget r.headers "Location" = some loc →
      loc ≠ "" →
      (∀ r2, net loc (redirectOptions opts.headers) = Except.ok r2 →
        handleDockerRequest path opts net =
          Except.ok (r2, [(REGISTRY ++ path, opts), (loc, redirectOptions opts.headers)]))) ∧
    (∀ (path : String) (opts : FetchOptions) (net : UpNet)
      (authNet : Except String AuthResponse) (resp0 : Resp) (loc : String),
      net (REGISTRY ++ path) opts = Except.ok resp0 →
      (resp0.status == 401 && !(jsTruthy (hget opts.headers "Authorization"))) = false →
      isRedirect resp0.status = true →
      hget resp0.headers "Location" = some loc →
      loc ≠ "" →
      (∀ r3, net loc (redirectOptions opts.headers) = Except.ok r3 →
        handleDockerRequestActive path opts net authNet =
          Except.ok (r3, [(REGISTRY ++ path, opts), (loc, redirectOptions opts.headers)]))) ∧
    (∀ (path : String) (opts : FetchOptions) (net : UpNet)
      (authNet : Except String AuthResponse) (resp0 r1 r2 : Resp) (token loc1 : String),
      net (REGISTRY ++ path) opts = Except.ok resp0 →
      (resp0.status == 401 && !(jsTruthy (hget opts.headers "Authorization"))) = true →
      getAuthTokenSimple authNet = some token →
      net (REGISTRY ++ path)
        { opts with headers := hset opts.headers "Authorization" ("Bearer " ++ token) } =
        Except.ok r1 →
      isRedirect r1.status = true →
      hget r1.headers "Location" = some loc1 →
      loc1 ≠ "" →
      net loc1 (redirectOptions (hset opts.headers "Authorization" ("Bearer " ++ token))) =
        Except.ok r2 →
      (redirectOptions (hset opts.headers "Authorization" ("Bearer " ++ token))).method = "GET" ∧
      (redirectOptions (hset opts.headers "Authorization" ("Bearer " ++ token))).headers =
        hdelete opts.headers "Authorization" ∧
      hget (redirectOptions (hset opts.headers "Authorization" ("Bearer " ++ token))).headers
        "Authorization" = none ∧
      handleDockerRequestActive path opts net authNet =
        resolveRedirect opts.headers net r2
          [(REGISTRY ++ path, opts),
           (REGISTRY ++ path,
             { opts with headers := hset opts.headers "Authorization" ("Bearer " ++ token) }),
           (loc1, redirectOptions (hset opts.headers "Authorization" ("Bearer " ++ token)))]) := by
  refine ⟨?_, ?_, ?_, ?_⟩
  · intro H net resp tr0 loc hred hloc hlocne
    refine ⟨rfl, rfl, hget_hdelete_self _ _, ?_⟩
    intro r2 h2
    simp only [resolveRedirect]
    rw [if_pos hred, hloc]
    rw [if_pos (show jsTruthy (some loc) = true from by simp [jsTruthy, hlocne])]
    simp only [jsVal]
    rw [h2]
  · intro path opts net r loc hnet hred hloc hlocne r2 h2
    simp only [handleDockerRequest, hnet, resolveRedirect]
    rw [if_pos hred, hloc]
    rw [if_pos (show jsTruthy (some loc) = true from by simp [jsTruthy, hlocne])]
    simp only [jsVal]
    rw [h2]
    rfl
  · intro path opts net authNet resp0 loc hnet hcond hred hloc hlocne r3 h3
    simp only [handleDockerRequestActive, hnet, hcond, Bool.false_eq_true, if_false,
      resolveRedirect]
    rw [if_pos hred, hloc]
    rw [if_pos (show jsTruthy (some loc) = true from by simp [jsTruthy, hlocne])]
    simp only [jsVal]
    rw [h3]
    rfl
  · intro path opts net authNet resp0 r1 r2 token loc1 hnet hcond hA h1 hred1 hloc1 hlocne1 h2
    refine ⟨rfl,
      hdelete_hset_self opts.headers "Authorization" ("Bearer " ++ token),
      hget_hdelete_self (hset opts.headers "Authorization" ("Bearer " ++ token))
        "Authorization", ?_⟩
    simp only [handleDockerRequestActive, hnet]
    rw [if_pos hcond]
    simp only [hA, h1, resolveRedirect]
    rw [if_pos hred1, hloc1]
    rw [if_pos (show jsTruthy (some loc1) = true from by simp [jsTruthy, hlocne1])]
    simp only [jsVal]
    rw [h2]
    rfl

def optsW : FetchOptions :=
  ⟨"GET", [("authorization", "Bearer secret"), ("accept", "x")], RedirectMode.manual, none⟩

def upstream302 : Resp := ⟨302, [("location", "https://cdn.example/blob")], ""⟩

def cdnResp : Resp := ⟨200, [], "blob-bytes"⟩

def netRedir : UpNet := fun url _ =>
  if url = "https://cdn.example/blob" then Except.ok cdnResp else Except.ok upstream302

/-- Concrete instance of C1: an upstream 302 to a CDN is followed with a GET
whose headers lost the `Authorization: Bearer secret` of the original
options. -/
theorem redirect_strips_authorization_witness :
    hget (redirectOptions optsW.headers).headers "Authorization" = none ∧
    handleDockerRequest "/v2/library/alpine/blobs/sha256:x" optsW netRedir =
      Except.ok (cdnResp,
        [("https://registry-1.docker.io/v2/library/alpine/blobs/sha256:x", optsW),
         ("https://cdn.example/blob", redirectOptions optsW.headers)]) := by
  have h := redirect_strips_authorization.2.1 "/v2/library/alpine/blobs/sha256:x" optsW
    netRedir upstream302 "https://cdn.example/blob" rfl rfl (by decide) (by decide)
  exact ⟨hget_hdelete_self optsW.headers "Authorization", h cdnResp rfl⟩

/-! ### C5: redirect hop and transport mode -/

/-- Counterexample to claim C5 as stated: the follow-up GET recorded for the
redirect is issued with `redirect: 'follow'` — transport-level redirect
following is enabled, not disabled. -/
theorem redirect_transport_mode_cex :
    handleDockerRequest "/v2/library/alpine/blobs/sha256:x" optsW netRedir =
      Except.ok (cdnResp,
        [("https://registry-1.docker.io/v2/library/alpine/blobs/sha256:x", optsW),
         ("https://cdn.example/blob", redirectOptions optsW.headers)]) ∧
    (redirectOptions optsW.headers).redirect = RedirectMode.follow ∧
    RedirectMode.follow ≠ RedirectMode.manual := by
  refine ⟨rfl, rfl, by decide⟩

theorem resolveRedirect_redirect (H : Headers) (net : UpNet) (resp r2 : Resp)
    (loc : String)
    (hred : isRedirect resp.status = true)
    (hloc : hget resp.headers "Location" = some loc)
    (hlocne : loc ≠ "")
    (h2 : net loc (redirectOptions H) = Except.ok r2) (tr : List UpCall) :
    resolveRedirect H net resp tr = Except.ok (r2, tr ++ [(loc, redirectOptions H)]) := by
  simp only [resolveRedirect]
  rw [if_pos hred, hloc]
  rw [if_pos (show jsTruthy (some loc) = true from by simp [jsTruthy, hlocne])]
  simp only [jsVal]
  rw [h2]

/-- Claim C5 (amended): every redirect follow-up GET is issued with
transport-level redirect following ENABLED (`redirect: 'follow'`), so deeper
redirects are delegated to the HTTP client.  The passive forwarder resolves
exactly one hop itself and returns the follow-up's result as the final
response even when that result is itself a redirect status (first conjunct);
the active forwarder's post-auth-retry redirect resolution falls through to
the outer redirect check, so when the inner follow-up's result is itself a
301/302/307 a second — final — hop is resolved, with the original headers
minus `Authorization` (second conjunct). -/
theorem redirect_single_hop_follow :
    (∀ (path : String) (opts : FetchOptions) (net : UpNet) (r r2 : Resp) (loc : String),
      net (REGISTRY ++ path) opts = Except.ok r →
      isRedirect r.status = true →
      hget r.headers "Location" = some loc →
      loc ≠ "" →
      net loc (redirectOptions opts.headers) = Except.ok r2 →
      (redirectOptions opts.headers).redirect = RedirectMode.follow ∧
      handleDockerRequest path opts net =
        Except.ok (r2, [(REGISTRY ++ path, opts), (loc, redirectOptions opts.headers)])) ∧
    (∀ (path : String) (opts : FetchOptions) (net : UpNet)
        (authNet : Except String AuthResponse) (resp0 r1 r2 r3 : Resp)
        (token loc1 loc2 : String),
      net (REGISTRY ++ path) opts = Except.ok resp0 →
      (resp0.status == 401 && !(jsTruthy (hget opts.headers "Authorization"))) = true →
      getAuthTokenSimple authNet = some token →
      net (REGISTRY ++ path)
        { opts with headers := hset opts.headers "Authorization" ("Bearer " ++ token) } =
        Except.ok r1 →
      isRedirect r1.status = true →
      hget r1.headers "Location" = some loc1 →
      loc1 ≠ "" →
      net loc1 (redirectOptions (hset opts.headers "Authorization" ("Bearer " ++ token))) =
        Except.ok r2 →
      isRedirect r2.status = true →
      hget r2.headers "Location" = some loc2 →
      loc2 ≠ "" →
      net loc2 (redirectOptions opts.headers) = Except.ok r3 →
      (redirectOptions opts.headers).redirect = RedirectMode.follow ∧
      handleDockerRequestActive path opts net authNet =
        Except.ok (r3,
          [(REGISTRY ++ path, opts),
           (REGISTRY ++ path,
             { opts with headers := hset opts.headers "Authorization" ("Bearer " ++ token) }),
           (loc1, redirectOptions (hset opts.headers "Authorization" ("Bearer " ++ token))),
           (loc2, redirectOptions opts.headers)])) := by
  constructor
  · intro path opts net r r2 loc hnet hred hloc hlocne h2
    refine ⟨rfl, ?_⟩
    simp only [handleDockerRequest, hnet]
    rw [resolveRedirect_redirect opts.headers net r r2 loc hred hloc hlocne h2]
    rfl
  · intro path opts net authNet resp0 r1 r2 r3 token loc1 loc2
      hnet hcond hA h1 hred1 hloc1 hlocne1 h2 hred2 hloc2 hlocne2 h3
    refine ⟨rfl, ?_⟩
    simp only [handleDockerRequestActive, hnet]
    rw [if_pos hcond]
    simp only [hA, h1]
    simp only [resolveRedirect_redirect (hset opts.headers "Authorization" ("Bearer " ++ token))
      net r1 r2 loc1 hred1 hloc1 hlocne1 h2]
    simp only [resolveRedirect_redirect opts.headers net r2 r3 loc2 hred2 hloc2 hlocne2 h3]
    rfl

def cdn302 : Resp := ⟨302, [("location", "https://deeper.example/y")], ""⟩

def netRedir2 : UpNet := fun url _ =>
  if url = "https://cdn.example/blob" then Except.ok cdn302 else Except.ok upstream302

def optsAnon : FetchOptions := ⟨"GET", [("accept", "x")], RedirectMode.manual, none⟩

def resp401anon : Resp := ⟨401, [], ""⟩

def netDouble : UpNet := fun url o =>
  if url = "https://registry-1.docker.io/v2/library/alpine/blobs/sha256:x" then
    if hget o.headers "Authorization" = none then Except.ok resp401anon
    else Except.ok upstream302
  else if url = "https://cdn.example/blob" then Except.ok cdn302
  else Except.ok cdnResp

/-- Concrete instance of the amended C5: in the passive forwarder the CDN's
own 302 is returned as the final response (one hop); in the active forwarder
an anonymous 401, token retry, 302 to the CDN and a second 302 from the CDN
produce a four-call run whose final response comes from the second hop. -/
theorem redirect_single_hop_follow_witness :
    handleDockerRequest "/v2/library/alpine/blobs/sha256:x" optsW netRedir2 =
      Except.ok (cdn302,
        [("https://registry-1.docker.io/v2/library/alpine/blobs/sha256:x", optsW),
         ("https://cdn.example/blob", redirectOptions optsW.headers)]) ∧
    handleDockerRequestActive "/v2/library/alpine/blobs/sha256:x" optsAnon netDouble
        (Except.ok ⟨200, some "tok", none⟩) =
      Except.ok (cdnResp,
        [("https://registry-1.docker.io/v2/library/alpine/blobs/sha256:x", optsAnon),
         ("https://registry-1.docker.io/v2/library/alpine/blobs/sha256:x",
           { optsAnon with headers := hset optsAnon.headers "Authorization" ("Bearer " ++ "tok") }),
         ("https://cdn.example/blob",
           redirectOptions (hset optsAnon.headers "Authorization" ("Bearer " ++ "tok"))),
         ("https://deeper.example/y", redirectOptions optsAnon.headers)]) := by
  constructor
  · exact (redirect_single_hop_follow.1 "/v2/library/alpine/blobs/sha256:x" optsW netRedir2
      upstream302 cdn302 "https://cdn.example/blob" rfl rfl (by decide) (by decide) rfl).2
  · exact (redirect_single_hop_follow.2 "/v2/library/alpine/blobs/sha256:x" optsAnon netDouble
      (Except.ok ⟨200, some "tok", none⟩) resp401anon upstream302 cdn302 cdnResp "tok"
      "https://cdn.example/blob" "https://deeper.example/y"
      rfl (by decide) rfl rfl rfl (by decide) (by decide) rfl rfl (by decide) (by decide)
      rfl).2

/-! ### C4: passive 401 rewrite -/

def req4 : Request :=
  ⟨"gw.example", "/v2/library/alpine/manifests/latest", none, "GET", [], none⟩

def upstream401 : Resp :=
  ⟨401,
   [("www-authenticate",
     "Bearer realm=\"https://auth.upstream.example/token\",service=\"my-registry.example\"")],
   "denied"⟩

def net401 : UpNet := fun _ _ => Except.ok upstream401

/-- Counterexample to claim C4 as stated: for an upstream 401 whose
`WWW-Authenticate` names `service="my-registry.example"`, the gateway's
rewritten header carries the hard-coded `service="registry.docker.io"` — the
upstream's service value is NOT preserved. -/
theorem passive_401_rewrite_cex :
    hget (fetchHandler req4 net401 ⟨[], 0⟩ (fun _ => Except.error "x")).1.headers
      "WWW-Authenticate" = some (realmHeaderValue "gw.example") ∧
    realmHeaderValue "gw.example" ≠
      "Bearer realm=\"https://gw.example/v2/auth\",service=\"my-registry.example\"" := by
  exact ⟨by decide, by decide⟩

/-- Claim C4 (amended): under the passive variant, when the forwarded
request's final upstream response is a 401 carrying a truthy
`WWW-Authenticate` header, the gateway responds 401 with the upstream body
and headers unchanged except that `WWW-Authenticate` is overwritten with
`Bearer realm="https://<gateway-host>/v2/auth",service="registry.docker.io"`
— the realm points at the gateway's own auth endpoint, but the service is
this fixed value rather than the upstream's service. -/
theorem passive_401_rewrite (req : Request) (net : UpNet) (st : AuthState)
    (authNet : Nat → Except String AuthResponse) (resp : Resp) (tr : List UpCall)
    (hroute : route req.path = Route.proxy)
    (hrun : handleDockerRequest req.path (buildFetchOptions req) net = Except.ok (resp, tr))
    (h401 : resp.status = 401)
    (hww : jsTruthy (hget resp.headers "WWW-Authenticate") = true) :
    (fetchHandler req net st authNet).1.status = 401 ∧
    (fetchHandler req net st authNet).1.body = resp.body ∧
    (fetchHandler req net st authNet).1.headers =
      hset resp.headers "WWW-Authenticate" (realmHeaderValue req.hostname) ∧
    hget (fetchHandler req net st authNet).1.headers "WWW-Authenticate" =
      some (realmHeaderValue req.hostname) := by
  have hfh : fetchHandler req net st authNet = (postProcess401 req.hostname resp, tr) := by
    simp only [fetchHandler, hroute, hrun]
  have hpp : postProcess401 req.hostname resp =
      ⟨401, hset resp.headers "WWW-Authenticate" (realmHeaderValue req.hostname), resp.body⟩ := by
    simp only [postProcess401]
    rw [if_pos (show (resp.status == 401) = true from by simp [h401])]
    rw [if_pos hww]
  rw [hfh, hpp]
  exact ⟨rfl, rfl, rfl, hget_hset_self _ _ _⟩

/-- Concrete instance of the amended C4 at the counterexample input. -/
theorem passive_401_rewrite_witness :
    (fetchHandler req4 net401 ⟨[], 0⟩ (fun _ => Except.error "x")).1.status = 401 ∧
    (fetchHandler req4 net401 ⟨[], 0⟩ (fun _ => Except.error "x")).1.body = "denied" := by
  have h := passive_401_rewrite req4 net401 ⟨[], 0⟩ (fun _ => Except.error "x")
    upstream401 [(REGISTRY ++ req4.path, buildFetchOptions req4)]
    (by decide) rfl rfl (by decide)
  exact ⟨h.1, h.2.1⟩

/-! ### C7: transport failures become 503 -/

/-- Claim C7: in both dispatcher variants, if the forwarding step throws, the
gateway responds 503 with the JSON body
`(errors:[(code:"SERVICE_UNAVAILABLE", message:<error text or "service
unavailable">)])`; every branch of the (total) handler produces a response,
so no error crosses the HTTP boundary. -/
theorem forward_failure_503 :
    (∀ (req : Request) (net : UpNet) (st : AuthState)
        (authNet : Nat → Except String AuthResponse) (e : String),
      route req.path = Route.proxy →
      handleDockerRequest req.path (buildFetchOptions req) net = Except.error e →
      fetchHandler req net st authNet = (serviceUnavailableResp e, []) ∧
      (serviceUnavailableResp e).status = 503 ∧
      (serviceUnavailableResp e).body =
        errorsJson "SERVICE_UNAVAILABLE" (if e = "" then "service unavailable" else e)) ∧
    (∀ (req : Request) (net : UpNet) (authNet authNetInner : Except String AuthResponse)
        (e : String),
      route req.path = Route.proxy →
      handleDockerRequestActive req.path (buildFetchOptions req) net authNetInner =
        Except.error e →
      fetchHandlerActive req net authNet authNetInner = (serviceUnavailableResp e, [])) := by
  constructor
  · intro req net st authNet e hroute herr
    refine ⟨?_, rfl, rfl⟩
    simp only [fetchHandler, hroute, herr]
  · intro req net authNet authNetInner e hroute herr
    simp only [fetchHandlerActive, hroute, herr]

/-- Concrete instance of C7: a thrown upstream fetch maps to the 503
`SERVICE_UNAVAILABLE` response carrying the error text. -/
theorem forward_failure_503_witness :
    fetchHandler req4 (fun _ _ => Except.error "connection reset") ⟨[], 0⟩
      (fun _ => Except.error "x") = (serviceUnavailableResp "connection reset", []) := by
  exact (forward_failure_503.1 req4 (fun _ _ => Except.error "connection reset") ⟨[], 0⟩
    (fun _ => Except.error "x") "connection reset" (by decide) rfl).1

/-! ### C10: only the literal `/v2/auth` is shadowed -/

def reqAuthRepo : Request :=
  ⟨"gw.example", "/v2/auth/manifests/latest", none, "GET", [], none⟩

def netOk : UpNet := fun _ _ => Except.ok cdnResp

/-- Counterexample to claim C10's consequence: registry operations on a
repository named `auth` use paths such as `/v2/auth/manifests/latest`, which
is not the exact `/v2/auth`; that path routes to the proxy branch, is
forwarded upstream (one recorded registry call), and its derived scope names
the `auth` repository — so the repository is reachable through the
gateway. -/
theorem auth_repo_reachable_cex :
    route "/v2/auth/manifests/latest" = Route.proxy ∧
    parseScope "/v2/auth/manifests/latest" = "repository:library/auth:pull" ∧
    (fetchHandler reqAuthRepo netOk ⟨[], 0⟩ (fun _ => Except.error "x")).2 =
      [("https://registry-1.docker.io/v2/auth/manifests/latest",
        buildFetchOptions reqAuthRepo)] := by
  refine ⟨by decide, by decide, ?_⟩
  rfl

/-- Claim C10 (amended): the exact path `/v2/auth` is matched by the
dispatcher's auth branch before the generic `/v2/` proxy branch in both
variants — routed to the synthetic token endpoint with no upstream registry
call even though the path starts with `/v2/` — but only that literal path is
shadowed: every other path starting with `/v2/` (in particular the
`/v2/auth/...` paths that address a repository named `auth`) still routes to
the proxy branch, so such a repository remains reachable. -/
theorem auth_path_not_proxied :
    (∀ (req : Request) (net : UpNet) (st : AuthState)
        (authNet : Nat → Except String AuthResponse)
        (authNetA authNetInner : Except String AuthResponse),
      req.path = "/v2/auth" →
      route req.path = Route.auth ∧
      fetchHandler req net st authNet = (handleAuth req st authNet, []) ∧
      fetchHandlerActive req net authNetA authNetInner =
        (handleAuthSimple req authNetA, []) ∧
      startsWithStr req.path "/v2/" = true) ∧
    (∀ path : String, startsWithStr path "/v2/" = true →
      path ≠ "/v2/" → path ≠ "/v2" → path ≠ "/v2/auth" →
      route path = Route.proxy) := by
  constructor
  · intro req net st authNet authNetA authNetInner h
    have hr : route req.path = Route.auth := by rw [h]; decide
    refine ⟨hr, ?_, ?_, by rw [h]; decide⟩
    · simp only [fetchHandler, hr]
    · simp only [fetchHandlerActive, hr]
  · intro path hsw h1 h2 h3
    simp only [route]
    rw [if_neg (fun hor => hor.elim h1 h2)]
    rw [if_neg h3]
    rw [if_neg (by simp [hsw])]

def reqAuth : Request :=
  ⟨"gw.example", "/v2/auth", some "repository:library/nginx:pull", "GET", [], none⟩

/-- Concrete instance of the amended C10: a `/v2/auth` request is answered by
the auth handler with an empty upstream trace, while the manifest path of a
repository named `auth` routes to the proxy branch. -/
theorem auth_path_not_proxied_witness :
    fetchHandler reqAuth (fun _ _ => Except.error "no-upstream") ⟨[], 0⟩
      (fun _ => Except.error "x") =
      (handleAuth reqAuth ⟨[], 0⟩ (fun _ => Except.error "x"), []) ∧
    route "/v2/auth" = Route.auth ∧
    route "/v2/auth/manifests/latest" = Route.proxy := by
  have h := auth_path_not_proxied.1 reqAuth (fun _ _ => Except.error "no-upstream") ⟨[], 0⟩
    (fun _ => Except.error "x") (Except.error "y") (Except.error "z") rfl
  exact ⟨h.2.1, h.1,
    auth_path_not_proxied.2 "/v2/auth/manifests/latest" (by decide) (by decide) (by decide)
      (by decide)⟩

end DockerProxy
